import Mathlib

/-!
Verification of the couchbase-python-client views layer.

The streaming iterator `ViewRequest` is embedded from
`couchbase/views.py`.  The surrounding state kept by its base class
`ViewRequestLogic` (streaming flags, the raw streaming result, the stored
metadata) and the `ViewQuery` option builder live outside the provided
sources, so those parts are modelled from the specification; every such
definition is marked `Modelled from the spec:` in its doc comment.
-/

namespace Views

/-- JSON-like values: the shape of deserialized rows and of the
key/keys/startkey/endkey option values. -/
inductive JValue where
  | jnull : JValue
  | jbool : Bool → JValue
  | jnum : Int → JValue
  | jstr : String → JValue
  | jarr : List JValue → JValue
deriving Repr

/-- Modelled from the spec: the summary metadata available after the
stream is drained, exposing a total row count (`ViewMetaData` from
`couchbase/logic/views.py`, absent from the provided sources). -/
structure ViewMetaData where
  total_rows : Nat
deriving Repr, DecidableEq

/-- An object pulled from the raw streaming result that is neither the
`None` sentinel nor an in-stream error marker: either an encoded data row
or the out-of-band metadata trailer blob. -/
inductive Payload where
  | enc : String → Payload
  | metaP : ViewMetaData → Payload
deriving Repr

/-- One item yielded by the raw streaming result
(`next(self._streaming_result)`): a plain object, an instance of the
base couchbase exception class used as an in-stream error marker
(carrying its error code), or `None` — the end-of-stream sentinel. -/
inductive SourceItem where
  | obj : Payload → SourceItem
  | errMarker : Nat → SourceItem
  | nullItem : SourceItem
deriving Repr

/-- Domain (Couchbase) exceptions relevant to this layer. -/
inductive CbErr where
  | alreadyQueried : CbErr
  | mapped : Nat → CbErr
  | internalSDK : String → CbErr
deriving Repr, DecidableEq

/-- Python exceptions as observed by the iterator: `StopIteration`, a
domain `CouchbaseException`, or any other exception (with its message). -/
inductive PyExc where
  | stopIteration : PyExc
  | couchbase : CbErr → PyExc
  | other : String → PyExc
deriving Repr, DecidableEq

/-- The message `str(ex)` of an exception, used when wrapping it. -/
def PyExc.msg : PyExc → String
  | .stopIteration => ""
  | .couchbase _ => "couchbase exception"
  | .other m => m

/-- Modelled from the spec: `ErrorMapper.build_exception` (from
`couchbase/exceptions.py`, absent from the provided sources) turns an
in-stream error marker into the fully-mapped domain exception derived
from the marker's error code. -/
def build_exception (code : Nat) : CbErr := .mapped code

/-- Modelled from the spec: the server error code carried by the
in-stream marker for a missing design document. -/
def design_document_not_found_code : Nat := 72

/-- Modelled from the spec: the domain exception mapped from a
design-document-not-found in-stream error marker
(`DesignDocumentNotFoundException`). -/
def DesignDocumentNotFound : CbErr := build_exception design_document_not_found_code

/-- One pull on the raw streaming result either yields an item or raises
an exception (a transport failure, or `StopIteration` when the iterator
is exhausted). -/
inductive PullOutcome where
  | yields : SourceItem → PullOutcome
  | raises : PyExc → PullOutcome
deriving Repr

/-- The value a `__next__` call hands back to the consumer: either the
row mapped onto the configured `ViewRow` row factory, or the raw
deserialized value. -/
inductive RowValue where
  | viewRow : JValue → RowValue
  | raw : JValue → RowValue
deriving Repr

/-- Modelled from the spec: the state `ViewRequest` inherits from
`ViewRequestLogic` (absent from the provided sources): the raw streaming
result (embedded as the list of outcomes of the remaining pulls), the
started/done streaming flags, the stored metadata, the configured
serializer's `deserialize`, and whether the configured `row_factory` is a
`ViewRow` subclass.  `submits` counts `_submit_query` calls so that
at-most-once submission is observable. -/
structure ViewRequest where
  streaming_result : List PullOutcome
  started_streaming : Bool
  done_streaming : Bool
  metadata : Option ViewMetaData
  deserialize : Payload → Except PyExc JValue
  row_factory_is_ViewRow : Bool
  submits : Nat

/-- One call of `next(self._streaming_result)`: the head outcome of the
remaining pulls; an exhausted source raises `StopIteration`. -/
def pullNext : List PullOutcome → Except PyExc SourceItem × List PullOutcome
  | [] => (.error .stopIteration, [])
  | .yields i :: rest => (.ok i, rest)
  | .raises e :: rest => (.error e, rest)

/-- Modelled from the spec: `_submit_query` (from `ViewRequestLogic`)
performs the external submission and marks the request as streaming. -/
def _submit_query (rq : ViewRequest) : ViewRequest :=
  { rq with started_streaming := true, submits := rq.submits + 1 }

/-- Modelled from the spec: `_set_metadata` (from `ViewRequestLogic`)
stores the trailer response pulled after the sentinel as the request's
`ViewMetaData`. -/
def _set_metadata (rq : ViewRequest) (resp : SourceItem) : ViewRequest :=
  match resp with
  | .obj (.metaP md) => { rq with metadata := some md }
  | _ => { rq with metadata := some ⟨0⟩ }

/-- Embeds `ViewRequest._get_metadata` (`couchbase/views.py` lines
30-39): pull one more item from the streaming result and store it as
metadata; re-raise a `CouchbaseException` as is, wrap anything else into
the internal-SDK exception kind. -/
def _get_metadata (rq : ViewRequest) : Except PyExc Unit × ViewRequest :=
  match pullNext rq.streaming_result with
  | (.ok resp, rest) => (.ok (), _set_metadata { rq with streaming_result := rest } resp)
  | (.error e, rest) =>
    let rq' := { rq with streaming_result := rest }
    match e with
    | .couchbase ce => (.error (.couchbase ce), rq')
    | e => (.error (.couchbase (.internalSDK e.msg)), rq')

/-- Embeds `ViewRequest.__iter__` (`couchbase/views.py` lines 41-48):
raise `AlreadyQueriedException` once done streaming, submit the query on
first use, and return the iterator itself. -/
def __iter__ (rq : ViewRequest) : Except PyExc ViewRequest :=
  if rq.done_streaming then .error (.couchbase .alreadyQueried)
  else if rq.started_streaming then .ok rq
  else .ok (_submit_query rq)

/-- Embeds `ViewRequest._get_next_row` (`couchbase/views.py` lines
50-65): once done streaming, return `None`; otherwise pull one item —
an in-stream error marker raises its mapped exception, the `None`
sentinel raises `StopIteration`, and a data row is deserialized and, when
the row factory is a `ViewRow` subclass, mapped onto it. -/
def _get_next_row (rq : ViewRequest) : Except PyExc (Option RowValue) × ViewRequest :=
  if rq.done_streaming then (.ok none, rq)
  else
    match pullNext rq.streaming_result with
    | (.error e, rest) => (.error e, { rq with streaming_result := rest })
    | (.ok i, rest) =>
      let rq' := { rq with streaming_result := rest }
      match i with
      | .errMarker code => (.error (.couchbase (build_exception code)), rq')
      | .nullItem => (.error .stopIteration, rq')
      | .obj payload =>
        match rq.deserialize payload with
        | .error e => (.error e, rq')
        | .ok v =>
          if rq.row_factory_is_ViewRow then (.ok (some (.viewRow v)), rq')
          else (.ok (some (.raw v)), rq')

/-- Embeds `ViewRequest.__next__` (`couchbase/views.py` lines 67-79):
return the next row; on `StopIteration` set the done flag, fetch the
metadata and re-raise; re-raise a `CouchbaseException` unchanged; wrap
any other exception into the internal-SDK exception kind. -/
def __next__ (rq : ViewRequest) : Except PyExc (Option RowValue) × ViewRequest :=
  match _get_next_row rq with
  | (.ok v, rq') => (.ok v, rq')
  | (.error .stopIteration, rq') =>
    let rq2 := { rq' with done_streaming := true }
    (match _get_metadata rq2 with
     | (.ok (), rq3) => (.error .stopIteration, rq3)
     | (.error e, rq3) => (.error e, rq3))
  | (.error (.couchbase ce), rq') => (.error (.couchbase ce), rq')
  | (.error (.other m), rq') => (.error (.couchbase (.internalSDK m)), rq')

/-- Repeatedly call `__next__` (as a `for` loop does), collecting the
returned values until a call raises; the raised exception (if any within
`fuel` calls) is returned alongside the final state. -/
def drain (fuel : Nat) (rq : ViewRequest) :
    List (Option RowValue) × Option PyExc × ViewRequest :=
  match fuel with
  | 0 => ([], none, rq)
  | fuel + 1 =>
    match __next__ rq with
    | (.ok v, rq') =>
      let r := drain fuel rq'
      (v :: r.1, r.2.1, r.2.2)
    | (.error e, rq') => ([], some e, rq')

/-- Escape one character as inside a JSON string literal. -/
def escapeChar (c : Char) : String :=
  if c = '"' then "\\\"" else if c = '\\' then "\\\\" else String.singleton c

/-- Escape the body of a JSON string literal. -/
def escapeString (s : String) : String :=
  String.join (s.data.map escapeChar)

mutual

/-- Modelled from the spec: `json.dumps` — the canonical JSON text
representation of a value, used to independently encode each
key/keys/startkey/endkey option at build time. -/
def JValue.dumps : JValue → String
  | .jnull => "null"
  | .jbool true => "true"
  | .jbool false => "false"
  | .jnum n => toString n
  | .jstr s => "\"" ++ escapeString s ++ "\""
  | .jarr xs => "[" ++ dumpsList xs ++ "]"

/-- Comma-joined JSON texts of the elements of an array. -/
def dumpsList : List JValue → String
  | [] => ""
  | [x] => JValue.dumps x
  | x :: y :: xs => JValue.dumps x ++ "," ++ dumpsList (y :: xs)

end

/-- Modelled from the spec: the design-document namespace enum with its
canonical string values. -/
inductive DesignDocumentNamespace where
  | development : DesignDocumentNamespace
  | production : DesignDocumentNamespace
deriving Repr, DecidableEq

/-- Canonical string value of a namespace. -/
def DesignDocumentNamespace.value : DesignDocumentNamespace → String
  | .development => "development"
  | .production => "production"

/-- Modelled from the spec: the `ViewOrdering` enum with its canonical
string values. -/
inductive ViewOrdering where
  | ascending : ViewOrdering
  | descending : ViewOrdering
deriving Repr, DecidableEq

/-- Canonical string value of an ordering. -/
def ViewOrdering.value : ViewOrdering → String
  | .ascending => "ascending"
  | .descending => "descending"

/-- Modelled from the spec: the `ViewErrorMode` enum with its canonical
string values. -/
inductive ViewErrorMode where
  | stop : ViewErrorMode
  | continueMode : ViewErrorMode
deriving Repr, DecidableEq

/-- Canonical string value of an error mode. -/
def ViewErrorMode.value : ViewErrorMode → String
  | .stop => "stop"
  | .continueMode => "continue"

/-- Modelled from the spec: the `ViewScanConsistency` enum with its
canonical string values. -/
inductive ViewScanConsistency where
  | notBounded : ViewScanConsistency
  | requestPlus : ViewScanConsistency
  | updateAfter : ViewScanConsistency
deriving Repr, DecidableEq

/-- Canonical string value of a scan-consistency mode. -/
def ViewScanConsistency.value : ViewScanConsistency → String
  | .notBounded => "not_bounded"
  | .requestPlus => "request_plus"
  | .updateAfter => "update_after"

/-- Modelled from the spec: a `datetime.timedelta` duration, by its
(possibly fractional) seconds. -/
structure Timedelta where
  seconds : Rat
deriving Repr, DecidableEq

/-- Modelled from the spec: the three accepted forms of the `timeout`
option — a duration, an integer number of seconds, or a floating-point
number of fractional seconds. -/
inductive TimeoutValue where
  | delta : Timedelta → TimeoutValue
  | intSeconds : Int → TimeoutValue
  | floatSeconds : Rat → TimeoutValue
deriving Repr, DecidableEq

/-- Modelled from the spec: every accepted `timeout` form normalizes to
an integer number of microseconds in the encoded mapping. -/
def timeout_micros : TimeoutValue → Int
  | .delta td => Int.floor (td.seconds * 1000000)
  | .intSeconds s => s * 1000000
  | .floatSeconds q => Int.floor (q * 1000000)

/-- A value in the encoded parameter mapping: a string, a boolean, an
integer, a list of (JSON-text) strings, or the serializer object. -/
inductive EncValue where
  | s : String → EncValue
  | b : Bool → EncValue
  | n : Int → EncValue
  | sl : List String → EncValue
  | ser : String → EncValue
deriving Repr

/-- Modelled from the spec: the `ViewOptions` bag — every option is
absent unless explicitly set by the caller.  The Python `namespace`
option is named `nameSpace` here because `namespace` is a Lean keyword;
the serializer object is identified by a name. -/
structure ViewOptions where
  client_context_id : Option String := none
  debug : Option Bool := none
  endkey : Option JValue := none
  endkey_docid : Option String := none
  group : Option Bool := none
  group_level : Option Nat := none
  inclusive_end : Option Bool := none
  key : Option JValue := none
  keys : Option (List JValue) := none
  limit : Option Nat := none
  nameSpace : Option DesignDocumentNamespace := none
  on_error : Option ViewErrorMode := none
  order : Option ViewOrdering := none
  reduce : Option Bool := none
  scan_consistency : Option ViewScanConsistency := none
  serializer : Option String := none
  skip : Option Nat := none
  startkey : Option JValue := none
  startkey_docid : Option String := none
  timeout : Option TimeoutValue := none

/-- The mapping entry contributed by one option: nothing when the option
is absent, its canonical field name and encoded value when set. -/
def optPair {α : Type} (fieldName : String) (o : Option α) (f : α → EncValue) :
    List (String × EncValue) :=
  match o with
  | none => []
  | some a => [(fieldName, f a)]

/-- Modelled from the spec: `ViewQuery.as_encodable` — the flat
canonical-field mapping built from the three identity fields and the
explicitly-set options (absent options are omitted entirely). -/
def as_encodable (bucket doc view : String) (o : ViewOptions) :
    List (String × EncValue) :=
  ("bucket_name", .s bucket) ::
  ("document_name", .s doc) ::
  ("view_name", .s view) ::
  (optPair "namespace" o.nameSpace (fun x => .s x.value) ++
   optPair "client_context_id" o.client_context_id (fun x => .s x) ++
   optPair "debug" o.debug (fun x => .b x) ++
   optPair "end_key" o.endkey (fun x => .s x.dumps) ++
   optPair "end_key_doc_id" o.endkey_docid (fun x => .s x) ++
   optPair "group" o.group (fun x => .b x) ++
   optPair "group_level" o.group_level (fun x => .n x) ++
   optPair "inclusive_end" o.inclusive_end (fun x => .b x) ++
   optPair "key" o.key (fun x => .s x.dumps) ++
   optPair "keys" o.keys (fun x => .sl (x.map JValue.dumps)) ++
   optPair "limit" o.limit (fun x => .n x) ++
   optPair "on_error" o.on_error (fun x => .s x.value) ++
   optPair "order" o.order (fun x => .s x.value) ++
   optPair "reduce" o.reduce (fun x => .b x) ++
   optPair "scan_consistency" o.scan_consistency (fun x => .s x.value) ++
   optPair "serializer" o.serializer (fun x => .ser x) ++
   optPair "skip" o.skip (fun x => .n x) ++
   optPair "start_key" o.startkey (fun x => .s x.dumps) ++
   optPair "start_key_doc_id" o.startkey_docid (fun x => .s x) ++
   optPair "timeout" o.timeout (fun x => .n (timeout_micros x)))

/-- Look a field up in an encoded mapping. -/
def lookupField : List (String × EncValue) → String → Option EncValue
  | [], _ => none
  | (k, v) :: rest, key => if key = k then some v else lookupField rest key

/-- The canonical field names of the explicitly-set options, in mapping
order; written directly from the spec's field list, for comparison with
the fields `as_encodable` actually emits. -/
def explicitFields (o : ViewOptions) : List String :=
  (if o.nameSpace.isSome then ["namespace"] else []) ++
  (if o.client_context_id.isSome then ["client_context_id"] else []) ++
  (if o.debug.isSome then ["debug"] else []) ++
  (if o.endkey.isSome then ["end_key"] else []) ++
  (if o.endkey_docid.isSome then ["end_key_doc_id"] else []) ++
  (if o.group.isSome then ["group"] else []) ++
  (if o.group_level.isSome then ["group_level"] else []) ++
  (if o.inclusive_end.isSome then ["inclusive_end"] else []) ++
  (if o.key.isSome then ["key"] else []) ++
  (if o.keys.isSome then ["keys"] else []) ++
  (if o.limit.isSome then ["limit"] else []) ++
  (if o.on_error.isSome then ["on_error"] else []) ++
  (if o.order.isSome then ["order"] else []) ++
  (if o.reduce.isSome then ["reduce"] else []) ++
  (if o.scan_consistency.isSome then ["scan_consistency"] else []) ++
  (if o.serializer.isSome then ["serializer"] else []) ++
  (if o.skip.isSome then ["skip"] else []) ++
  (if o.startkey.isSome then ["start_key"] else []) ++
  (if o.startkey_docid.isSome then ["start_key_doc_id"] else []) ++
  (if o.timeout.isSome then ["timeout"] else [])

/-- A concrete request used to instantiate the theorems below: the
stream is as given, streaming has started, and the serializer
deserializes an encoded row to its string value. -/
def sampleRequest (stream : List PullOutcome) : ViewRequest where
  streaming_result := stream
  started_streaming := true
  done_streaming := false
  metadata := none
  deserialize := fun p =>
    match p with
    | .enc s => .ok (.jstr s)
    | .metaP _ => .ok .jnull
  row_factory_is_ViewRow := false
  submits := 1

/-! Helper lemmas about single `__next__` steps and lookups. -/

theorem lookupField_append (xs ys : List (String × EncValue)) (key : String) :
    lookupField (xs ++ ys) key = (lookupField xs key).or (lookupField ys key) := by
  induction xs with
  | nil => simp [lookupField]
  | cons p rest ih =>
    cases p with
    | mk k v =>
      simp only [List.cons_append, lookupField]
      split <;> simp [ih]

theorem lookupField_optPair {α : Type} (n : String) (o : Option α) (f : α → EncValue)
    (key : String) :
    lookupField (optPair n o f) key = if key = n then o.map f else none := by
  cases o <;> simp [optPair, lookupField]

theorem lookupField_cons (k : String) (v : EncValue) (rest : List (String × EncValue))
    (key : String) :
    lookupField ((k, v) :: rest) key = if key = k then some v else lookupField rest key := rfl

theorem map_fst_optPair {α : Type} (n : String) (o : Option α) (f : α → EncValue) :
    (optPair n o f).map Prod.fst = if o.isSome then [n] else [] := by
  cases o <;> rfl

theorem next_step_data_row (rq : ViewRequest) (s : String) (v : JValue)
    (rest : List PullOutcome)
    (hdone : rq.done_streaming = false)
    (hstream : rq.streaming_result = PullOutcome.yields (SourceItem.obj (Payload.enc s)) :: rest)
    (hdes : rq.deserialize (Payload.enc s) = Except.ok v) :
    __next__ rq =
      (.ok (some (if rq.row_factory_is_ViewRow then RowValue.viewRow v else RowValue.raw v)),
       { rq with streaming_result := rest }) := by
  simp only [__next__, _get_next_row, hdone, hstream, pullNext, hdes, Bool.false_eq_true,
    if_false]
  cases h : rq.row_factory_is_ViewRow <;> simp [h]

/-- C2 counterexample: on an in-stream error marker the iterator does
raise the mapped domain exception, but the done-streaming flag is NOT
set afterwards — the state does not transition to `Done` as the claim
states. -/
theorem error_marker_leaves_state_not_done :
    (__next__ (sampleRequest [.yields (.errMarker 5)])).1
        = .error (.couchbase (build_exception 5)) ∧
    (__next__ (sampleRequest [.yields (.errMarker 5)])).2.done_streaming = false := by
  constructor <;> rfl

/-- C2 (amended): when the next pulled item is an in-stream error
marker, `__next__` raises the domain exception mapped from the marker's
error code, performs no metadata fetch (the stored metadata is
unchanged and only the marker itself is consumed), and leaves the
done-streaming flag unset (the state does not transition to `Done`). -/
theorem error_marker_raises_mapped (rq : ViewRequest) (code : Nat)
    (rest : List PullOutcome)
    (hdone : rq.done_streaming = false)
    (hstream : rq.streaming_result = PullOutcome.yields (SourceItem.errMarker code) :: rest) :
    (__next__ rq).1 = .error (.couchbase (build_exception code)) ∧
    (__next__ rq).2.done_streaming = false ∧
    (__next__ rq).2.metadata = rq.metadata ∧
    (__next__ rq).2.streaming_result = rest := by
  simp [__next__, _get_next_row, hdone, hstream, pullNext]

/-- C2 witness at a concrete request whose first item is an error
marker with code 5. -/
theorem error_marker_raises_mapped_witness :
    (__next__ (sampleRequest [.yields (.errMarker 5)])).1
        = .error (.couchbase (build_exception 5)) ∧
    (__next__ (sampleRequest [.yields (.errMarker 5)])).2.done_streaming = false ∧
    (__next__ (sampleRequest [.yields (.errMarker 5)])).2.metadata
        = (sampleRequest [.yields (.errMarker 5)]).metadata ∧
    (__next__ (sampleRequest [.yields (.errMarker 5)])).2.streaming_result = [] :=
  error_marker_raises_mapped (sampleRequest [.yields (.errMarker 5)]) 5 [] rfl rfl

/-- C9: once the done-streaming flag is set, `__next__` returns `None`
(the Python method falls through without a `return` statement), raises
nothing, and leaves the request — in particular the underlying stream —
untouched. -/
theorem next_after_done_returns_none (rq : ViewRequest)
    (hdone : rq.done_streaming = true) :
    __next__ rq = (.ok none, rq) := by
  simp [__next__, _get_next_row, hdone]

/-- C9 witness at a concrete finished request with a non-empty stream
left (which is therefore provably not pulled). -/
theorem next_after_done_returns_none_witness :
    __next__ { sampleRequest [.yields (.errMarker 1)] with done_streaming := true }
      = (.ok none, { sampleRequest [.yields (.errMarker 1)] with done_streaming := true }) :=
  next_after_done_returns_none
    { sampleRequest [.yields (.errMarker 1)] with done_streaming := true } rfl

/-- C4: calling `__iter__` on a request that has reached the `Done`
state raises `AlreadyQueriedException`. -/
theorem iter_after_done_raises_already_queried (rq : ViewRequest)
    (hdone : rq.done_streaming = true) :
    __iter__ rq = .error (.couchbase .alreadyQueried) := by
  simp [__iter__, hdone]

/-- C4 witness at a concrete finished request. -/
theorem iter_after_done_raises_already_queried_witness :
    __iter__ { sampleRequest [] with done_streaming := true }
      = .error (.couchbase .alreadyQueried) :=
  iter_after_done_raises_already_queried
    { sampleRequest [] with done_streaming := true } rfl

/-- C10: before the `Done` state, `__iter__` on an already-streaming
request returns the very same request (no resubmission), and whatever
`__iter__` returns has the started flag set, has submitted at most one
more query than before, and is a fixed point of `__iter__` — so the
query is submitted at most once per instance however often `__iter__`
is called before `Done`. -/
theorem iter_idempotent_while_streaming (rq : ViewRequest)
    (hdone : rq.done_streaming = false) :
    (rq.started_streaming = true → __iter__ rq = .ok rq) ∧
    ∀ rq', __iter__ rq = .ok rq' →
      rq'.started_streaming = true ∧ rq'.submits ≤ rq.submits + 1 ∧ __iter__ rq' = .ok rq' := by
  constructor
  · intro hstart
    simp [__iter__, hdone, hstart]
  · intro rq' h
    by_cases hstart : rq.started_streaming
    · simp only [__iter__, hdone, Bool.false_eq_true, if_false, hstart, if_true,
        Except.ok.injEq] at h
      subst h
      simp [__iter__, hdone, hstart]
    · simp only [__iter__, hdone, Bool.false_eq_true, if_false, hstart, Except.ok.injEq] at h
      subst h
      simp [__iter__, _submit_query, hdone]

/-- C10 witness at a concrete request that has already started
streaming. -/
theorem iter_idempotent_while_streaming_witness :
    ((sampleRequest []).started_streaming = true → __iter__ (sampleRequest []) = .ok (sampleRequest [])) ∧
    ∀ rq', __iter__ (sampleRequest []) = .ok rq' →
      rq'.started_streaming = true ∧ rq'.submits ≤ (sampleRequest []).submits + 1 ∧
      __iter__ rq' = .ok rq' :=
  iter_idempotent_while_streaming (sampleRequest []) rfl

/-- C3: when the first pulled item is an in-stream error marker (for
example `design_document_not_found_code`), draining yields zero rows,
the first `__next__` call raises the mapped domain exception, and the
stored metadata remains unset. -/
theorem first_item_error_marker_no_rows (rq : ViewRequest) (code : Nat)
    (rest : List PullOutcome) (fuel : Nat)
    (hdone : rq.done_streaming = false)
    (hmeta : rq.metadata = none)
    (hstream : rq.streaming_result = PullOutcome.yields (SourceItem.errMarker code) :: rest) :
    (drain (fuel + 1) rq).1 = [] ∧
    (drain (fuel + 1) rq).2.1 = some (.couchbase (build_exception code)) ∧
    (drain (fuel + 1) rq).2.2.metadata = none := by
  simp [drain, __next__, _get_next_row, hdone, hstream, pullNext, hmeta]

/-- C3 witness at a concrete request whose first item is the
design-document-not-found marker. -/
theorem first_item_error_marker_no_rows_witness :
    (drain 1 (sampleRequest [.yields (.errMarker design_document_not_found_code)])).1 = [] ∧
    (drain 1 (sampleRequest [.yields (.errMarker design_document_not_found_code)])).2.1
        = some (.couchbase DesignDocumentNotFound) ∧
    (drain 1 (sampleRequest [.yields (.errMarker design_document_not_found_code)])).2.2.metadata
        = none :=
  first_item_error_marker_no_rows
    (sampleRequest [.yields (.errMarker design_document_not_found_code)])
    design_document_not_found_code [] 0 rfl rfl rfl

/-- C5 counterexample: a non-Couchbase, non-end-of-stream exception from
the source is wrapped into the internal-SDK kind and re-raised, but the
done-streaming flag is NOT set afterwards — the state does not
transition to `Done` as the claim states. -/
theorem wrapped_error_leaves_state_not_done :
    (__next__ (sampleRequest [.raises (.other "boom")])).1
        = .error (.couchbase (.internalSDK "boom")) ∧
    (__next__ (sampleRequest [.raises (.other "boom")])).2.done_streaming = false := by
  constructor <;> rfl

/-- C5 (amended): an exception raised during `__next__` by the
underlying source or by deserialization that is neither a Couchbase
exception nor `StopIteration` is wrapped into the internal-SDK error
kind and re-raised, and the done-streaming flag is left unset (the
state does not transition to `Done`). -/
theorem other_exception_wrapped_internal (rq : ViewRequest) (m : String)
    (rest : List PullOutcome)
    (hdone : rq.done_streaming = false) :
    (rq.streaming_result = PullOutcome.raises (PyExc.other m) :: rest →
      (__next__ rq).1 = .error (.couchbase (.internalSDK m)) ∧
      (__next__ rq).2.done_streaming = false ∧
      (__next__ rq).2.streaming_result = rest) ∧
    (∀ s, rq.streaming_result = PullOutcome.yields (SourceItem.obj (Payload.enc s)) :: rest →
      rq.deserialize (Payload.enc s) = .error (PyExc.other m) →
      (__next__ rq).1 = .error (.couchbase (.internalSDK m)) ∧
      (__next__ rq).2.done_streaming = false ∧
      (__next__ rq).2.streaming_result = rest) := by
  constructor
  · intro hstream
    simp [__next__, _get_next_row, hdone, hstream, pullNext]
  · intro s hstream hdes
    simp [__next__, _get_next_row, hdone, hstream, pullNext, hdes]

/-- C5 witness at a concrete request whose source raises a plain
exception on the first pull. -/
theorem other_exception_wrapped_internal_witness :
    ((sampleRequest [.raises (.other "boom")]).streaming_result
        = PullOutcome.raises (PyExc.other "boom") :: [] →
      (__next__ (sampleRequest [.raises (.other "boom")])).1
          = .error (.couchbase (.internalSDK "boom")) ∧
      (__next__ (sampleRequest [.raises (.other "boom")])).2.done_streaming = false ∧
      (__next__ (sampleRequest [.raises (.other "boom")])).2.streaming_result = []) ∧
    (∀ s, (sampleRequest [.raises (.other "boom")]).streaming_result
        = PullOutcome.yields (SourceItem.obj (Payload.enc s)) :: [] →
      (sampleRequest [.raises (.other "boom")]).deserialize (Payload.enc s)
          = .error (PyExc.other "boom") →
      (__next__ (sampleRequest [.raises (.other "boom")])).1
          = .error (.couchbase (.internalSDK "boom")) ∧
      (__next__ (sampleRequest [.raises (.other "boom")])).2.done_streaming = false ∧
      (__next__ (sampleRequest [.raises (.other "boom")])).2.streaming_result = []) :=
  other_exception_wrapped_internal (sampleRequest [.raises (.other "boom")]) "boom" [] rfl

/-- Draining a stream that starts with data rows first yields exactly
those rows, deserialized in order, and then continues on the remaining
tail of the stream. -/
theorem drain_data_prefix (rows : List String) :
    ∀ (vs : List JValue) (rq : ViewRequest) (tail : List PullOutcome) (fuel : Nat),
      rq.done_streaming = false →
      rq.streaming_result
          = rows.map (fun s => PullOutcome.yields (SourceItem.obj (Payload.enc s))) ++ tail →
      List.Forall₂ (fun s v => rq.deserialize (Payload.enc s) = Except.ok v) rows vs →
      drain (rows.length + fuel) rq =
        ((vs.map fun v => some (if rq.row_factory_is_ViewRow then RowValue.viewRow v
            else RowValue.raw v))
            ++ (drain fuel { rq with streaming_result := tail }).1,
         (drain fuel { rq with streaming_result := tail }).2) := by
  induction rows with
  | nil =>
    intro vs rq tail fuel hdone hstream hdes
    cases hdes
    simp only [List.map_nil, List.nil_append] at hstream
    have heq : { rq with streaming_result := tail } = rq := by
      rw [← hstream]
    rw [heq]
    simp
  | cons s rows ih =>
    intro vs rq tail fuel hdone hstream hdes
    cases hdes with
    | cons h1 h2 =>
      rename_i v vs'
      simp only [List.map_cons, List.cons_append] at hstream
      have hstep := next_step_data_row rq s v _ hdone hstream h1
      have hrec := ih vs' { rq with streaming_result := List.map (fun t => PullOutcome.yields (SourceItem.obj (Payload.enc t))) rows ++ tail } tail fuel hdone rfl h2
      rw [List.length_cons, Nat.add_right_comm]
      simp only [drain, hstep]
      rw [hrec]
      simp

/-- C1: draining a request whose source yields N data rows, then the
end-of-stream sentinel, then the out-of-band metadata trailer, produces
exactly those N rows in source order, then raises `StopIteration`
(normal end-of-sequence, not an error); exactly one additional metadata
retrieval is performed from the exhausted source (the trailer is
consumed and nothing remains), the state is `Done`, and the stored
metadata is the trailer — whose total row count is at least N for a
well-formed server response. -/
theorem drain_complete_stream (rq : ViewRequest) (rows : List String) (vs : List JValue)
    (md : ViewMetaData)
    (hdone : rq.done_streaming = false)
    (hstream : rq.streaming_result
        = rows.map (fun s => PullOutcome.yields (SourceItem.obj (Payload.enc s)))
          ++ [PullOutcome.yields SourceItem.nullItem,
              PullOutcome.yields (SourceItem.obj (Payload.metaP md))])
    (hdes : List.Forall₂ (fun s v => rq.deserialize (Payload.enc s) = Except.ok v) rows vs)
    (htot : rows.length ≤ md.total_rows) :
    (drain (rows.length + 1) rq).1
        = vs.map (fun v => some (if rq.row_factory_is_ViewRow then RowValue.viewRow v
            else RowValue.raw v)) ∧
    (drain (rows.length + 1) rq).2.1 = some PyExc.stopIteration ∧
    (drain (rows.length + 1) rq).2.2.done_streaming = true ∧
    (drain (rows.length + 1) rq).2.2.metadata = some md ∧
    (drain (rows.length + 1) rq).2.2.streaming_result = [] ∧
    ∀ m, (drain (rows.length + 1) rq).2.2.metadata = some m → rows.length ≤ m.total_rows := by
  have h := drain_data_prefix rows vs rq
    [PullOutcome.yields SourceItem.nullItem, PullOutcome.yields (SourceItem.obj (Payload.metaP md))]
    1 hdone hstream hdes
  rw [h]
  simp only [drain, __next__, _get_next_row, _get_metadata, _set_metadata, pullNext, hdone,
    Bool.false_eq_true, if_false]
  refine ⟨by simp, trivial, trivial, trivial, trivial, ?_⟩
  intro m hm
  simp only [Option.some.injEq] at hm
  rw [← hm]
  exact htot

/-- C1 witness: a concrete request with two data rows, the sentinel and
a trailer reporting 42 total rows. -/
theorem drain_complete_stream_witness :
    (drain 3 (sampleRequest [.yields (.obj (.enc "r1")), .yields (.obj (.enc "r2")),
        .yields .nullItem, .yields (.obj (.metaP ⟨42⟩))])).1
        = [some (RowValue.raw (.jstr "r1")), some (RowValue.raw (.jstr "r2"))] ∧
    (drain 3 (sampleRequest [.yields (.obj (.enc "r1")), .yields (.obj (.enc "r2")),
        .yields .nullItem, .yields (.obj (.metaP ⟨42⟩))])).2.1 = some PyExc.stopIteration ∧
    (drain 3 (sampleRequest [.yields (.obj (.enc "r1")), .yields (.obj (.enc "r2")),
        .yields .nullItem, .yields (.obj (.metaP ⟨42⟩))])).2.2.done_streaming = true ∧
    (drain 3 (sampleRequest [.yields (.obj (.enc "r1")), .yields (.obj (.enc "r2")),
        .yields .nullItem, .yields (.obj (.metaP ⟨42⟩))])).2.2.metadata = some ⟨42⟩ ∧
    (drain 3 (sampleRequest [.yields (.obj (.enc "r1")), .yields (.obj (.enc "r2")),
        .yields .nullItem, .yields (.obj (.metaP ⟨42⟩))])).2.2.streaming_result = [] ∧
    ∀ m, (drain 3 (sampleRequest [.yields (.obj (.enc "r1")), .yields (.obj (.enc "r2")),
        .yields .nullItem, .yields (.obj (.metaP ⟨42⟩))])).2.2.metadata = some m →
      2 ≤ m.total_rows :=
  drain_complete_stream
    (sampleRequest [.yields (.obj (.enc "r1")), .yields (.obj (.enc "r2")),
      .yields .nullItem, .yields (.obj (.metaP ⟨42⟩))])
    ["r1", "r2"] [.jstr "r1", .jstr "r2"] ⟨42⟩ rfl rfl
    (List.Forall₂.cons rfl (List.Forall₂.cons rfl List.Forall₂.nil)) (by decide)

/-- C6: the encoded mapping holds exactly the three always-present
identity fields followed by the canonical fields of the explicitly-set
options — no extra fields, no omissions, no placeholders for absent
options — and the identity fields hold the bucket, design-document and
view names. -/
theorem as_encodable_exact_fields (b d v : String) (o : ViewOptions) :
    (as_encodable b d v o).map Prod.fst
        = "bucket_name" :: "document_name" :: "view_name" :: explicitFields o ∧
    lookupField (as_encodable b d v o) "bucket_name" = some (.s b) ∧
    lookupField (as_encodable b d v o) "document_name" = some (.s d) ∧
    lookupField (as_encodable b d v o) "view_name" = some (.s v) := by
  refine ⟨?_, rfl, rfl, rfl⟩
  simp only [as_encodable, explicitFields, List.map_cons, List.map_append, map_fst_optPair]

/-- C7: the `timeout` option accepts a 20-second duration, the integer
20 (seconds) and the float 25.5 (fractional seconds); the first two
normalize to 20000000 microseconds, the last to 25500000, and the
encoded mapping holds exactly the normalized integer microseconds of
whichever timeout was set. -/
theorem timeout_forms_normalize (b d v : String) (o : ViewOptions) :
    timeout_micros (.delta ⟨20⟩) = 20000000 ∧
    timeout_micros (.intSeconds 20) = 20000000 ∧
    timeout_micros (.floatSeconds (51 / 2)) = 25500000 ∧
    lookupField (as_encodable b d v o) "timeout"
        = o.timeout.map (fun t => EncValue.n (timeout_micros t)) := by
  refine ⟨?_, by decide, ?_, ?_⟩
  · show Int.floor ((20 : Rat) * 1000000) = 20000000
    norm_num
  · show Int.floor ((51 / 2 : Rat) * 1000000) = 25500000
    norm_num
  simp only [as_encodable, lookupField_cons, lookupField_append, lookupField_optPair,
    String.reduceEq, reduceIte, Option.none_or, Option.or_none]

/-- C8: each of `key`, `keys`, `startkey` and `endkey` is encoded as the
canonical JSON text of its value, carried as a string (`EncValue.s`),
not as a native structure; a `keys` list becomes the ordered sequence of
the independently JSON-encoded keys; and the JSON text of the array
`["a","b"]` is exactly that string. -/
theorem match_keys_json_encoded (b d v : String) (o : ViewOptions) :
    lookupField (as_encodable b d v o) "key"
        = o.key.map (fun x => EncValue.s x.dumps) ∧
    lookupField (as_encodable b d v o) "keys"
        = o.keys.map (fun x => EncValue.sl (x.map JValue.dumps)) ∧
    lookupField (as_encodable b d v o) "start_key"
        = o.startkey.map (fun x => EncValue.s x.dumps) ∧
    lookupField (as_encodable b d v o) "end_key"
        = o.endkey.map (fun x => EncValue.s x.dumps) ∧
    JValue.dumps (.jarr [.jstr "a", .jstr "b"]) = "[\"a\",\"b\"]" := by
  refine ⟨?_, ?_, ?_, ?_, ?_⟩
  · simp only [as_encodable, lookupField_cons, lookupField_append, lookupField_optPair,
      String.reduceEq, reduceIte, Option.none_or, Option.or_none]
  · simp only [as_encodable, lookupField_cons, lookupField_append, lookupField_optPair,
      String.reduceEq, reduceIte, Option.none_or, Option.or_none]
  · simp only [as_encodable, lookupField_cons, lookupField_append, lookupField_optPair,
      String.reduceEq, reduceIte, Option.none_or, Option.or_none]
  · simp only [as_encodable, lookupField_cons, lookupField_append, lookupField_optPair,
      String.reduceEq, reduceIte, Option.none_or, Option.or_none]
  · simp only [JValue.dumps, dumpsList]
    rfl

end Views
